import Mathlib

/-!
Verification of the contract-parser core of soda-core against its
specification.

The development shallowly embeds the two source files:

* `soda/core/soda/contract/parser/contract_parser.py` — the `ContractParser`
  orchestrator: `__init__`, `parse`, `_parse_yaml_str`, `validate_semantics`
  and `_validate_datasource_names`.
* `soda/core/soda/common/utilities.py` — `is_soda_library_available`.

Collaborating classes (`ParserLocation`, `ParserLogs`, `YamlString`, the
typed-file variants, `ParserResolver`, and the external ruamel YAML library)
are not part of the two source files; they are modelled from the
specification, and each such definition says so in its doc comment.

Python semantics that matter here and are embedded explicitly:

* `ContractParser.__init__` assigns `self.yaml`, `self.files`, `self.plugins`
  and `self.variable_resolver` but never `self.logs`; an access to
  `self.logs` on such an instance raises `AttributeError`.  The parser state
  therefore carries `logs : Option ParserLogs`, `none` meaning "attribute
  never assigned", and every embedded access to it is an explicit match that
  produces `PyError.attributeError` in the `none` case.
* `ContractParser.parse` has no `return` statement on its success path, so a
  successful call returns Python `None`; the embedding returns
  `Except.ok none` there.
* Mutation of the caller-supplied diagnostics sink and of the parser's own
  state is embedded by returning the updated values.
-/

namespace Soda

/-- Modelled from the spec: `ParserLocation` (parser_log.py, not under src) —
an immutable (file, line, column) triple attached to diagnostics. -/
structure ParserLocation where
  file_path : String
  line : Nat
  column : Nat
deriving DecidableEq, Repr

/-- Modelled from the spec: diagnostic severities of the sink. -/
inductive Severity where
  | error
  | warning
  | debug
deriving DecidableEq, Repr

/-- Modelled from the spec: one entry of the diagnostics sink — severity,
message, optional location, optional documentation reference. -/
structure Diagnostic where
  severity : Severity
  message : String
  location : Option ParserLocation
  docs_ref : Option String
deriving DecidableEq, Repr

/-- Modelled from the spec: the append-only diagnostics sink (`ParserLogs`),
as the ordered list of its entries. -/
abbrev ParserLogs := List Diagnostic

/-- Modelled from the spec: `ParserLogs.debug` appends a debug entry with no
location and no docs reference. -/
def logDebug (logs : ParserLogs) (message : String) : ParserLogs :=
  logs ++ [{ severity := Severity.debug, message := message, location := none, docs_ref := none }]

/-- Modelled from the spec: `ParserLogs.error` appends an error entry; the
location and docs reference are optional keyword arguments, absent ones
stay `none`. -/
def logError (logs : ParserLogs) (message : String)
    (location : Option ParserLocation) (docs_ref : Option String) : ParserLogs :=
  logs ++ [{ severity := Severity.error, message := message, location := location, docs_ref := docs_ref }]

/-- The generic YAML value tree produced by the external ruamel library
(out of scope per the spec), with a source location per node as ruamel
provides: scalars, sequences (`CommentedSeq`) and ordered mappings
(`CommentedMap`, string keys in document order). -/
inductive YamlNode where
  | str : String → ParserLocation → YamlNode
  | int : Int → ParserLocation → YamlNode
  | null : ParserLocation → YamlNode
  | seq : List YamlNode → ParserLocation → YamlNode
  | map : List (String × YamlNode) → ParserLocation → YamlNode

/-- Python's `type(x).__name__` for the values `yaml.load` can hand back
(`none` is Python `None`); `CommentedSeq` is special-cased to "list" at its
use site in `parse`, mirroring the source. -/
def typeName : Option YamlNode → String
  | none => "NoneType"
  | some (YamlNode.str _ _) => "str"
  | some (YamlNode.int _ _) => "int"
  | some (YamlNode.null _) => "NoneType"
  | some (YamlNode.seq _ _) => "CommentedSeq"
  | some (YamlNode.map _ _) => "CommentedMap"

/-- Outcome of the external `yaml.load`: a value (possibly Python `None`,
e.g. for an empty document) or a `MarkedYAMLError` carrying its message and
the problem mark's line and column. -/
inductive LoadResult where
  | ok : Option YamlNode → LoadResult
  | markedError : String → Nat → Nat → LoadResult

/-- Modelled from the spec: `YamlString` (parser_yaml.py, not under src) — a
string-typed scalar wrapper exposing `.value` and `.location`. -/
structure YamlString where
  value : String
  location : ParserLocation
deriving DecidableEq, Repr

/-- Modelled from the spec: the typed-file variants (parser_file.py,
parser_data_contract_file.py, parser_datasource_file.py, not under src).
A data-contract file exposes an optional `datasource` field and a
datasource file an optional `name` field, each `some` exactly when the
field is present and a plain string (the `isinstance(..., YamlString)`
checks of the source); `other` stands for plugin-contributed kinds. -/
inductive ParserFile where
  | dataContract (file_path : String) (file_content_str : String)
      (root : YamlNode) (root_location : ParserLocation) (datasource : Option YamlString)
  | datasourceFile (file_path : String) (file_content_str : String)
      (root : YamlNode) (root_location : ParserLocation) (name : Option YamlString)
  | other (file_path : String) (file_content_str : String)

/-- Modelled from the spec: the typed accessor of a data-contract file for
its optional `datasource` field — the field interpreted as a string-typed
scalar reference when present and a plain string, "not present" otherwise. -/
def dataContractDatasource : YamlNode → Option YamlString
  | YamlNode.map entries _ =>
      match entries.lookup "datasource" with
      | some (YamlNode.str s loc) => some { value := s, location := loc }
      | _ => none
  | _ => none

/-- A Python exception escaping an embedded call. -/
inductive PyError where
  | attributeError (attr : String)
  | raised (name : String)
deriving DecidableEq, Repr

/-- The state of a `ContractParser` instance: the external YAML loader held
by `self.yaml`, the file registry, the plugin list (plugins as opaque
identifiers), the injected variable resolver, and the `self.logs` instance
attribute — `none` when it was never assigned, which is what `__init__`
leaves (it assigns only `yaml`, `files`, `plugins`, `variable_resolver`). -/
structure ContractParser where
  yamlLoad : String → LoadResult
  files : List ParserFile
  plugins : List String
  variable_resolver : String → String
  logs : Option ParserLogs

/-- Modelled from the spec: the default `ParserResolver()` is the no-op
(identity) text transform. -/
def defaultResolver : String → String := id

/-- Embeds `ContractParser.__init__`: empty registry, empty plugin list, the
given resolver, and no `logs` attribute assigned. -/
def ContractParser.init (yamlLoad : String → LoadResult)
    (variable_resolver : String → String) : ContractParser :=
  { yamlLoad := yamlLoad, files := [], plugins := [],
    variable_resolver := variable_resolver, logs := none }

/-- Embeds `ContractParser._parse_yaml_str`: `try: return self.yaml.load(...)`,
and on `MarkedYAMLError` an error entry is appended to `self.logs` — an
attribute `__init__` never assigns, so that access raises `AttributeError`;
when the attribute exists the handler logs and the method falls through,
returning Python `None`. -/
def ContractParser._parse_yaml_str (self : ContractParser) (file_path : String)
    (file_content_str : String) : Except PyError (ContractParser × Option YamlNode) :=
  match self.yamlLoad file_content_str with
  | LoadResult.ok root => Except.ok (self, root)
  | LoadResult.markedError msg line col =>
      match self.logs with
      | none => Except.error (PyError.attributeError "logs")
      | some selfSink =>
          Except.ok
            ({ self with
                logs := some (logError selfSink ("Invalid YAML: " ++ msg)
                  (some { file_path := file_path, line := line, column := col }) none) },
              none)

/-- What one `parse` call leaves behind: the parser state after the call, the
caller-supplied sink after the call, the `plugin.parse` invocations the call
performed in order, and the call's result — the value `parse` returns
(`none`: the source has no `return` statement on the success path) or the
exception it raises. -/
structure ParseOutcome where
  parser : ContractParser
  sink : ParserLogs
  plugin_calls : List (String × ParserFile)
  result : Except PyError (Option ParserFile)

/-- Embeds `ContractParser.parse`: resolve variables, log a debug entry to
the caller's sink, load the resolved text, reject a non-mapping root with a
structural error on the caller's sink, and on a mapping root construct a
`ParserDataContractFile` — whose first constructor argument `self.logs`
raises `AttributeError` when the attribute was never assigned — append it to
the registry and run the plugins on it. -/
def ContractParser.parse (self : ContractParser) (contract_yaml_str : String)
    (file_path : String) (logs : ParserLogs) : ParseOutcome :=
  let resolved_file_content_str := self.variable_resolver contract_yaml_str
  let logs := logDebug logs ("Parsing file '" ++ file_path ++ "'")
  match self._parse_yaml_str file_path resolved_file_content_str with
  | Except.error e =>
      { parser := self, sink := logs, plugin_calls := [], result := Except.error e }
  | Except.ok (self1, root_ruamel_object) =>
      match root_ruamel_object with
      | some (YamlNode.map entries map_loc) =>
          match self1.logs with
          | none =>
              { parser := self1, sink := logs, plugin_calls := [],
                result := Except.error (PyError.attributeError "logs") }
          | some _ =>
              let root := YamlNode.map entries map_loc
              let parser_file := ParserFile.dataContract file_path contract_yaml_str root
                { file_path := file_path, line := 0, column := 0 }
                (dataContractDatasource root)
              { parser := { self1 with files := self1.files ++ [parser_file] },
                sink := logs,
                plugin_calls := self1.plugins.map (fun p => (p, parser_file)),
                result := Except.ok none }
      | _ =>
          let actual_type_name :=
            match root_ruamel_object with
            | some (YamlNode.seq _ _) => "list"
            | r => typeName r
          let logs := logError logs
            ("All top level YAML elements must be objects, but was '" ++ actual_type_name ++ "'")
            none (some "04-data-contract-language.md#file-type")
          { parser := self1, sink := logs, plugin_calls := [], result := Except.ok none }

/-- The `datasource_locations` dictionary of `_validate_datasource_names`:
`setdefault` plus `append`, preserving first-insertion key order as a Python
dict does. -/
def insertLocation (acc : List (String × List ParserLocation)) (k : String)
    (loc : ParserLocation) : List (String × List ParserLocation) :=
  if acc.any (fun kv => kv.1 == k) then
    acc.map (fun kv => if kv.1 == k then (kv.1, kv.2 ++ [loc]) else kv)
  else
    acc ++ [(k, [loc])]

/-- First loop of `_validate_datasource_names`: collect, over the registry in
order, the declaration locations of every `ParserDatasourceFile` whose
`name` is a `YamlString`. -/
def datasourceLocations (files : List ParserFile) : List (String × List ParserLocation) :=
  files.foldl
    (fun acc file =>
      match file with
      | ParserFile.datasourceFile _ _ _ _ (some n) => insertLocation acc n.value n.location
      | _ => acc)
    []

/-- Second loop of `_validate_datasource_names`: for every name with more
than one declaration location, one error per location citing the name and
the location count. -/
def duplicateDiagnostics (locs : List (String × List ParserLocation)) : List Diagnostic :=
  ((locs.filter (fun kv => 1 < kv.2.length)).map
    (fun kv =>
      kv.2.map (fun loc =>
        { severity := Severity.error,
          message := "Datasource '" ++ kv.1 ++ "' was declared "
            ++ toString kv.2.length ++ " times",
          location := some loc, docs_ref := none }))).flatten

/-- Third loop of `_validate_datasource_names`: for every
`ParserDataContractFile` whose `datasource` is a `YamlString`, an error at
the reference's location when the referenced name is not among the declared
datasource names. -/
def referenceDiagnostics (locs : List (String × List ParserLocation))
    (files : List ParserFile) : List Diagnostic :=
  files.filterMap
    (fun file =>
      match file with
      | ParserFile.dataContract _ _ _ _ (some ds) =>
          if locs.any (fun kv => kv.1 == ds.value) then none
          else some { severity := Severity.error,
                      message := "Datasource '" ++ ds.value ++ "' is not defined",
                      location := some ds.location, docs_ref := none }
      | _ => none)

/-- The diagnostics `_validate_datasource_names` tries to emit, in emission
order: duplicate-name errors first, then undefined-reference errors. -/
def semanticDiagnostics (files : List ParserFile) : List Diagnostic :=
  duplicateDiagnostics (datasourceLocations files)
    ++ referenceDiagnostics (datasourceLocations files) files

/-- What one `validate_semantics` call leaves behind: the parser state after
the call, the entries the call appended to `self.logs`, and the normal or
exceptional result. -/
structure ValidateOutcome where
  parser : ContractParser
  emitted : List Diagnostic
  result : Except PyError Unit

/-- Embeds `ContractParser.validate_semantics` (which only calls
`_validate_datasource_names`).  Every emission goes through
`self.logs.error`; when the `logs` attribute was never assigned the first
emission raises `AttributeError` before anything is appended anywhere, so
the call succeeds silently when no diagnostic is due and raises otherwise;
when the attribute exists, all due diagnostics are appended to it in order.
The registry is read, never written. -/
def ContractParser.validate_semantics (self : ContractParser) : ValidateOutcome :=
  let ems := semanticDiagnostics self.files
  match self.logs with
  | none =>
      if ems.isEmpty then { parser := self, emitted := [], result := Except.ok () }
      else { parser := self, emitted := [], result := Except.error (PyError.attributeError "logs") }
  | some selfSink =>
      { parser := { self with logs := some (selfSink ++ ems) },
        emitted := ems, result := Except.ok () }

/-- Outcome of Python's `import` statement inside `is_soda_library_available`:
success, a `ModuleNotFoundError` (the module is absent), or some other
exception raised during the import attempt. -/
inductive ImportOutcome where
  | success
  | moduleNotFoundError
  | otherException (name : String)
deriving DecidableEq, Repr

/-- Embeds `is_soda_library_available` (utilities.py): try the import and
return `True`; catch `ModuleNotFoundError` and return `False`; any other
exception propagates. -/
def is_soda_library_available (outcome : ImportOutcome) : Except PyError Bool :=
  match outcome with
  | ImportOutcome.success => Except.ok true
  | ImportOutcome.moduleNotFoundError => Except.ok false
  | ImportOutcome.otherException n => Except.error (PyError.raised n)

/-- `map` kept by `YamlNode`: whether a loaded root is a `CommentedMap`. -/
def YamlNode.isMap : YamlNode → Bool
  | YamlNode.map _ _ => true
  | _ => false

/-- A concrete stand-in for the external ruamel loader, used by the concrete
evaluations: each fixture text is mapped to the tree ruamel would produce,
and every other text to a `MarkedYAMLError` as ruamel reports one. -/
def yamlFixture : String → LoadResult := fun s =>
  if s = "a: 1" then
    LoadResult.ok (some (YamlNode.map [("a", YamlNode.int 1 (ParserLocation.mk "" 0 3))]
      (ParserLocation.mk "" 0 0)))
  else if s = "- 1" then
    LoadResult.ok (some (YamlNode.seq [YamlNode.int 1 (ParserLocation.mk "" 0 2)]
      (ParserLocation.mk "" 0 0)))
  else if s = "name: db1" then
    LoadResult.ok (some (YamlNode.map [("name", YamlNode.str "db1" (ParserLocation.mk "" 0 6))]
      (ParserLocation.mk "" 0 0)))
  else
    LoadResult.markedError "while parsing a block node" 0 0

/-- A concrete substituting resolver for the variable-substitution claim. -/
def substResolver : String → String := fun s => if s = "a: ${V}" then "a: 1" else s

/-- Loader for the variable-substitution claim: the raw, unsubstituted text
loads as a sequence (which would take the structural-error branch), the
substituted text as a mapping, so the two parse branches tell apart which
text was handed to the loader. -/
def yamlFixtureSubst : String → LoadResult := fun s =>
  if s = "a: ${V}" then
    LoadResult.ok (some (YamlNode.seq [] (ParserLocation.mk "" 0 0)))
  else yamlFixture s

/-- The datasource file of the semantic-check evaluations: declares
`name: "db1"` at line 0, column 6 of ds.yml. -/
def dsFileDb1 : ParserFile :=
  ParserFile.datasourceFile "ds.yml" "name: db1"
    (YamlNode.map [("name", YamlNode.str "db1" (ParserLocation.mk "ds.yml" 0 6))]
      (ParserLocation.mk "ds.yml" 0 0))
    (ParserLocation.mk "ds.yml" 0 0)
    (some (YamlString.mk "db1" (ParserLocation.mk "ds.yml" 0 6)))

/-- A data-contract file referencing the given datasource name at line 0,
column 12 of c.yml. -/
def dcFileRef (ds : String) : ParserFile :=
  ParserFile.dataContract "c.yml" ("datasource: " ++ ds)
    (YamlNode.map [("datasource", YamlNode.str ds (ParserLocation.mk "c.yml" 0 12))]
      (ParserLocation.mk "c.yml" 0 0))
    (ParserLocation.mk "c.yml" 0 0)
    (some (YamlString.mk ds (ParserLocation.mk "c.yml" 0 12)))

/-- C1: evaluation at the failing input. On a fresh parser and text that
loads as a single top-level mapping, `parse` raises `AttributeError`
(`self.logs` is never assigned by `__init__`), appends no file to the
registry, and — even apart from the exception — the source has no `return`
statement that could hand the typed file back; the caller's sink receives
only the debug entry. -/
theorem C1_valid_mapping_parse_raises :
    ((ContractParser.init yamlFixture defaultResolver).parse "a: 1" "f.yml" []).result
      = Except.error (PyError.attributeError "logs") ∧
    ((ContractParser.init yamlFixture defaultResolver).parse "a: 1" "f.yml" []).parser.files = [] ∧
    ((ContractParser.init yamlFixture defaultResolver).parse "a: 1" "f.yml" []).sink
      = [{ severity := Severity.debug, message := "Parsing file 'f.yml'",
           location := none, docs_ref := none }] :=
  ⟨rfl, rfl, rfl⟩

/-- C2: evaluation at the failing input. On syntactically invalid YAML the
`except MarkedYAMLError` handler accesses `self.logs`, which `__init__`
never assigned, so `parse` raises `AttributeError` and no syntax-error
diagnostic reaches any sink: the caller's sink holds only the debug entry. -/
theorem C2_invalid_yaml_parse_raises :
    ((ContractParser.init yamlFixture defaultResolver).parse "a: [1," "f.yml" []).result
      = Except.error (PyError.attributeError "logs") ∧
    ((ContractParser.init yamlFixture defaultResolver).parse "a: [1," "f.yml" []).parser.files = [] ∧
    ((ContractParser.init yamlFixture defaultResolver).parse "a: [1," "f.yml" []).sink
      = [{ severity := Severity.debug, message := "Parsing file 'f.yml'",
           location := none, docs_ref := none }] :=
  ⟨rfl, rfl, rfl⟩

/-- C3: evaluation showing failures propagate as exceptions. A syntax
failure makes `parse` itself raise `AttributeError`, and a semantic check
that has a diagnostic to emit makes `validate_semantics` raise as well,
instead of reporting through the sink. -/
theorem C3_failures_raise_exceptions :
    ((ContractParser.init yamlFixture defaultResolver).parse ": bad" "g.yml" []).result
      = Except.error (PyError.attributeError "logs") ∧
    ((ContractParser.mk yamlFixture [dcFileRef "db9"] [] defaultResolver none).validate_semantics).result
      = Except.error (PyError.attributeError "logs") :=
  ⟨rfl, rfl⟩

/-- C4 counterexample: parsing text that loads as a top-level sequence
appends exactly one error diagnostic, but its location is `none` (the
source calls `logs.error` without a `location` argument), not
`(file_path, 0, 0)` as the claim states: no entry of the sink carries the
location `("f.yml", 0, 0)`. -/
theorem C4_counterexample_location_is_none :
    (((ContractParser.init yamlFixture defaultResolver).parse "- 1" "f.yml" []).sink.filter
        (fun d => d.location == some (ParserLocation.mk "f.yml" 0 0))) = [] ∧
    (((ContractParser.init yamlFixture defaultResolver).parse "- 1" "f.yml" []).sink.filter
        (fun d => d.severity == Severity.error))
      = [{ severity := Severity.error,
           message := "All top level YAML elements must be objects, but was 'list'",
           location := none, docs_ref := some "04-data-contract-language.md#file-type" }] :=
  ⟨rfl, rfl⟩

/-- C4 as amended: for every parse call whose resolved text loads as a
top-level value that is not a mapping, `parse` returns `None`, appends no
file to the registry, performs no plugin call, and appends to the sink
exactly one error diagnostic — naming the actual top-level type, carrying
the docs reference, and carrying no location. -/
theorem C4_structural_error_without_location (p : ContractParser) (text path : String)
    (logs : ParserLogs) (v : YamlNode)
    (hload : p.yamlLoad (p.variable_resolver text) = LoadResult.ok (some v))
    (hnotmap : v.isMap = false) :
    (p.parse text path logs).result = Except.ok none ∧
    (p.parse text path logs).parser.files = p.files ∧
    (p.parse text path logs).plugin_calls = [] ∧
    (p.parse text path logs).sink =
      logDebug logs ("Parsing file '" ++ path ++ "'") ++
        [{ severity := Severity.error,
           message := "All top level YAML elements must be objects, but was '"
             ++ (match v with
                 | YamlNode.seq _ _ => "list"
                 | w => typeName (some w)) ++ "'",
           location := none,
           docs_ref := some "04-data-contract-language.md#file-type" }] := by
  cases v
  case map entries loc => simp [YamlNode.isMap] at hnotmap
  all_goals
    simp_all [ContractParser.parse, ContractParser._parse_yaml_str, logDebug, logError, typeName]

/-- C4 witness: the amended statement applied at the concrete sequence
input "- 1" on a fresh parser. -/
theorem C4_structural_error_without_location_witness :
    ((ContractParser.init yamlFixture defaultResolver).parse "- 1" "f.yml" []).result
        = Except.ok none ∧
    ((ContractParser.init yamlFixture defaultResolver).parse "- 1" "f.yml" []).parser.files
        = (ContractParser.init yamlFixture defaultResolver).files ∧
    ((ContractParser.init yamlFixture defaultResolver).parse "- 1" "f.yml" []).plugin_calls = [] ∧
    ((ContractParser.init yamlFixture defaultResolver).parse "- 1" "f.yml" []).sink =
      logDebug [] ("Parsing file '" ++ "f.yml" ++ "'") ++
        [{ severity := Severity.error,
           message := "All top level YAML elements must be objects, but was '"
             ++ (match YamlNode.seq [YamlNode.int 1 (ParserLocation.mk "" 0 2)]
                   (ParserLocation.mk "" 0 0) with
                 | YamlNode.seq _ _ => "list"
                 | w => typeName (some w)) ++ "'",
           location := none,
           docs_ref := some "04-data-contract-language.md#file-type" }] :=
  C4_structural_error_without_location
    (ContractParser.init yamlFixture defaultResolver) "- 1" "f.yml" []
    (YamlNode.seq [YamlNode.int 1 (ParserLocation.mk "" 0 2)] (ParserLocation.mk "" 0 0))
    rfl rfl

/-- C5: evaluation at the failing input. Giving two datasource declarations
`name: db1` to `parse` registers nothing — each call raises
`AttributeError` on the unassigned `self.logs` before appending — so a
following `validate_semantics` emits no duplicate-name diagnostics; and
even the files the calls were building would have been
`ParserDataContractFile`s (the success path constructs no other variant),
which the duplicate check skips, as the last conjunct shows. -/
theorem C5_duplicate_names_never_reported :
    (((ContractParser.init yamlFixture defaultResolver).parse "name: db1" "ds1.yml" []).result
      = Except.error (PyError.attributeError "logs")) ∧
    (((ContractParser.init yamlFixture defaultResolver).parse "name: db1" "ds1.yml" []).parser.files
      = []) ∧
    ((((ContractParser.init yamlFixture defaultResolver).parse "name: db1" "ds1.yml"
        []).parser.parse "name: db1" "ds2.yml" []).parser.files = []) ∧
    (((((ContractParser.init yamlFixture defaultResolver).parse "name: db1" "ds1.yml"
        []).parser.parse "name: db1" "ds2.yml" []).parser.validate_semantics).emitted = []) ∧
    (((((ContractParser.init yamlFixture defaultResolver).parse "name: db1" "ds1.yml"
        []).parser.parse "name: db1" "ds2.yml" []).parser.validate_semantics).result
      = Except.ok ()) ∧
    semanticDiagnostics
      [ParserFile.dataContract "ds1.yml" "name: db1"
        (YamlNode.map [("name", YamlNode.str "db1" (ParserLocation.mk "" 0 6))]
          (ParserLocation.mk "" 0 0)) (ParserLocation.mk "ds1.yml" 0 0) none,
       ParserFile.dataContract "ds2.yml" "name: db1"
        (YamlNode.map [("name", YamlNode.str "db1" (ParserLocation.mk "" 0 6))]
          (ParserLocation.mk "" 0 0)) (ParserLocation.mk "ds2.yml" 0 0) none] = [] :=
  ⟨rfl, rfl, rfl, rfl, rfl, rfl⟩

/-- C6: evaluation at the failing input. With a registry holding a
datasource file declaring "db1" and a data-contract file referencing "db2",
the reference check computes exactly the diagnostic the claim describes
(one error at the reference's location naming "db2"), but emitting it goes
through the unassigned `self.logs`, so `validate_semantics` raises
`AttributeError` and nothing is emitted; when the reference is declared
("db1"), the call succeeds and emits nothing. -/
theorem C6_undefined_reference_raises_instead_of_emitting :
    semanticDiagnostics [dsFileDb1, dcFileRef "db2"]
      = [{ severity := Severity.error, message := "Datasource 'db2' is not defined",
           location := some (ParserLocation.mk "c.yml" 0 12), docs_ref := none }] ∧
    ((ContractParser.mk yamlFixture [dsFileDb1, dcFileRef "db2"] [] defaultResolver
        none).validate_semantics).emitted = [] ∧
    ((ContractParser.mk yamlFixture [dsFileDb1, dcFileRef "db2"] [] defaultResolver
        none).validate_semantics).result = Except.error (PyError.attributeError "logs") ∧
    ((ContractParser.mk yamlFixture [dsFileDb1, dcFileRef "db1"] [] defaultResolver
        none).validate_semantics).emitted = [] ∧
    ((ContractParser.mk yamlFixture [dsFileDb1, dcFileRef "db1"] [] defaultResolver
        none).validate_semantics).result = Except.ok () :=
  ⟨rfl, rfl, rfl, rfl, rfl⟩

/-- C7: `validate_semantics` never mutates the registry and recomputes its
diagnostics from scratch, so for every parser state a second call with no
intervening `parse` emits exactly what the first call emitted and finishes
the same way. -/
theorem C7_validate_semantics_idempotent (p : ContractParser) :
    (p.validate_semantics).parser.files = p.files ∧
    ((p.validate_semantics).parser.validate_semantics).emitted
      = (p.validate_semantics).emitted ∧
    ((p.validate_semantics).parser.validate_semantics).result
      = (p.validate_semantics).result := by
  rcases p with ⟨yl, fs, pls, vr, lg⟩
  cases lg with
  | none =>
      by_cases h : (semanticDiagnostics fs).isEmpty <;>
        simp [ContractParser.validate_semantics, h]
  | some sink =>
      simp [ContractParser.validate_semantics]

/-- C8: evaluation at the failing input. The loader maps the raw text
"a: ${V}" to a sequence (which would end in the structural-error branch)
and the substituted text "a: 1" to a mapping; the observed outcome is the
mapping branch's — `parse` reached the `ParserDataContractFile`
construction and raised `AttributeError` on `self.logs` — so the YAML tree
was built from the resolved text, but no typed file retaining the raw text
(or anything else) is ever produced, and no error diagnostic is appended. -/
theorem C8_resolver_applied_but_no_file_produced :
    ((ContractParser.init yamlFixtureSubst substResolver).parse "a: ${V}" "f.yml" []).result
      = Except.error (PyError.attributeError "logs") ∧
    ((ContractParser.init yamlFixtureSubst substResolver).parse "a: ${V}" "f.yml" []).parser.files
      = [] ∧
    (((ContractParser.init yamlFixtureSubst substResolver).parse "a: ${V}" "f.yml" []).sink.filter
        (fun d => d.severity == Severity.error)) = [] :=
  ⟨rfl, rfl, rfl⟩

/-- C9: evaluation at the failing input. With one registered plugin and text
that loads as a mapping, `parse` raises before the registry append, so the
plugin is never invoked and no file is ever successfully ingested. -/
theorem C9_plugins_never_invoked :
    ((ContractParser.mk yamlFixture [] ["plugin1"] defaultResolver none).parse
        "a: 1" "f.yml" []).plugin_calls = [] ∧
    ((ContractParser.mk yamlFixture [] ["plugin1"] defaultResolver none).parse
        "a: 1" "f.yml" []).parser.files = [] ∧
    ((ContractParser.mk yamlFixture [] ["plugin1"] defaultResolver none).parse
        "a: 1" "f.yml" []).result = Except.error (PyError.attributeError "logs") :=
  ⟨rfl, rfl, rfl⟩

/-- C10: `is_soda_library_available` returns `False` (no exception) when
the attempted import raises `ModuleNotFoundError`, and `True` when it
succeeds. -/
theorem C10_is_soda_library_available_total_on_absence :
    is_soda_library_available ImportOutcome.moduleNotFoundError = Except.ok false ∧
    is_soda_library_available ImportOutcome.success = Except.ok true :=
  ⟨rfl, rfl⟩

end Soda
